import Mathlib

/-!
Verification development for the MRSA resistance-probability estimation engine
(`python_backend/ai/ml_models.py` and `python_backend/ai/predictions.py`).

Conventions of the shallow embedding:
- Python floats are modelled as exact rationals (`ℚ`); every constant in the
  engine is a short decimal literal, so rational arithmetic is faithful.
- Python lists of strings are `List String`; optional parameters are `Option`.
- Python truthiness of the optional parameters is modelled explicitly
  (`None` and `""`/`[]` are falsy).
- Fallible code returns `Except PyError _`; a Python `raise` is `.error`.
  Notably, `float(x)` applied to a non-numeric, non-bool value raises
  `TypeError`, which matters for `_heuristic_predict`.
- The scikit-learn backed branch (`SKLEARN_AVAILABLE = True`) calls an
  external library that the spec excludes; the embedding models the
  in-repository fallback branch (`SKLEARN_AVAILABLE = False`), the synthetic
  cohort generation, and all pure calibration arithmetic, which is where the
  claims live.
-/

/-! ### Small string helpers (models of the Python `str` operations used) -/

/-- Model of Python `str.lower()` (ASCII-level, which covers all inputs the
engine compares against). -/
def strLower (s : String) : String := String.mk (s.data.map Char.toLower)

/-- Scan used to model the Python substring test `needle in hay`. -/
def subAux (pat : List Char) : List Char → Bool
  | [] => false
  | c :: cs => pat.isPrefixOf (c :: cs) || subAux pat cs

/-- Model of Python `needle in hay` for strings (nonempty needle). -/
def strContains (hay needle : String) : Bool := subAux needle.data hay.data

/-- Characters dropped from both ends, modelling Python `str.strip()`. -/
def trimChars (l : List Char) : List Char :=
  ((l.dropWhile Char.isWhitespace).reverse.dropWhile Char.isWhitespace).reverse

/-- Model of Python `str.strip()`. -/
def strTrim (s : String) : String := String.mk (trimChars s.data)

/-- Fuel-indexed worker for `strReplace`; fuel is the length of the scanned
list, which each step consumes at least one character of. -/
def replaceFuel (pat rep : List Char) : Nat → List Char → List Char
  | 0, l => l
  | _ + 1, [] => []
  | fuel + 1, c :: cs =>
    if !pat.isEmpty && pat.isPrefixOf (c :: cs) then
      rep ++ replaceFuel pat rep fuel ((c :: cs).drop pat.length)
    else
      c :: replaceFuel pat rep fuel cs

/-- Model of Python `str.replace(pat, rep)` (replace every non-overlapping
occurrence, left to right). -/
def strReplace (s pat rep : String) : String :=
  String.mk (replaceFuel pat.data rep.data s.data.length s.data)

/-- Python `float(...)` applied to a `bool` (`True ↦ 1.0`, `False ↦ 0.0`). -/
def boolToQ (b : Bool) : ℚ := if b then 1 else 0

/-! ### Knowledge base of `ResistanceFeatureExtractor` (ml_models.py lines 45-70) -/

/-- `HIGH_RISK_MECA` (ml_models.py line 49). -/
def HIGH_RISK_MECA : List String := ["G246E", "I112V", "D223N", "E125K", "N337D"]

/-- `HIGH_RISK_PBP2A` (ml_models.py line 50). -/
def HIGH_RISK_PBP2A : List String := ["E447K", "V311A", "T123C", "N246D", "A389T", "I517M"]

/-- `MUTATION_FREQUENCIES['mecA']` (ml_models.py lines 54-58). -/
def MUTATION_FREQUENCIES_mecA : List (String × ℚ) :=
  [("G246E", 0.15), ("I112V", 0.12), ("D223N", 0.08), ("E125K", 0.06),
   ("N337D", 0.05), ("G452S", 0.04), ("H267Y", 0.03), ("A156V", 0.03),
   ("T186A", 0.02), ("K219R", 0.02), ("S403N", 0.02), ("L461F", 0.01)]

/-- `MUTATION_FREQUENCIES['PBP2a']` (ml_models.py lines 59-63). -/
def MUTATION_FREQUENCIES_PBP2a : List (String × ℚ) :=
  [("E447K", 0.18), ("V311A", 0.14), ("T123C", 0.10), ("N246D", 0.08),
   ("A389T", 0.07), ("I517M", 0.06), ("H225Y", 0.05), ("V406A", 0.04),
   ("S461T", 0.03), ("M372I", 0.03), ("Y446N", 0.02), ("E239K", 0.02)]

/-- `SCCMEC_RISK` (ml_models.py lines 67-70). -/
def SCCMEC_RISK : List (String × ℚ) :=
  [("I", 0.6), ("II", 0.8), ("III", 0.85), ("IV", 0.7), ("IVa", 0.72),
   ("IVb", 0.68), ("IVc", 0.65), ("IVd", 0.63), ("V", 0.75), ("VI", 0.5)]

/-- Model of Python `dict.get(k, dflt)` on a literal string-keyed dict. -/
def dictGetQ (d : List (String × ℚ)) (k : String) (dflt : ℚ) : ℚ :=
  match d.find? (fun p => p.1 == k) with
  | some p => p.2
  | none => dflt

/-! ### Feature extraction (`ResistanceFeatureExtractor.extract_features`,
ml_models.py lines 72-131) -/

/-- The `MutationFeatures` dataclass (ml_models.py lines 28-42).  The
`sccmec_type` field holds the looked-up risk score, exactly as in the source
(line 107 stores `SCCMEC_RISK.get(...)` into it). -/
structure MutationFeatures where
  mecA_count : Nat
  pbp2a_count : Nat
  has_high_risk_mecA : Bool
  has_high_risk_pbp2a : Bool
  total_mutations : Nat
  mecA_frequency_sum : ℚ
  pbp2a_frequency_sum : ℚ
  has_sccmec : Bool
  sccmec_type : ℚ
  has_van_genes : Bool
  has_regulatory_mutations : Bool
  strain_risk_score : ℚ
deriving DecidableEq

/-- Truthiness of the optional SCCmec string (`if sccmec_type:` at line 103):
`None` and the empty string are falsy. -/
def optStrTruthy : Option String → Bool
  | none => false
  | some s => !(s == "")

/-- Truthiness of the optional gene list (`if additional_genes:` at line 111):
`None` and the empty list are falsy. -/
def optListTruthy : Option (List String) → Bool
  | none => false
  | some l => !l.isEmpty

/-- Normalisation of the SCCmec label (ml_models.py line 106):
`sccmec_type.replace('type-', '').replace('type', '').strip()`.
Note this is case-sensitive string replacement and a case-sensitive key. -/
def sccmecClean (s : String) : String :=
  strTrim (strReplace (strReplace s "type-" "") "type" "")

/-- The value of `features.sccmec_type` after lines 103-108: `0` when no
(truthy) SCCmec string was supplied, otherwise the case-sensitive table
lookup with default `0.5`. -/
def sccmecRiskOf : Option String → ℚ
  | none => 0
  | some s => if s == "" then 0 else dictGetQ SCCMEC_RISK (sccmecClean s) 0.5

/-- `ResistanceFeatureExtractor.extract_features` (ml_models.py lines 72-116),
up to the dataclass; the numpy conversion of lines 118-131 is
`featureVector` below. -/
def extract_features (mec_a_mutations pbp2a_mutations : List String)
    (sccmec_type : Option String) (additional_genes : Option (List String)) :
    MutationFeatures :=
  { mecA_count := mec_a_mutations.length
  , pbp2a_count := pbp2a_mutations.length
  , total_mutations := mec_a_mutations.length + pbp2a_mutations.length
  , has_high_risk_mecA := mec_a_mutations.any (fun m => HIGH_RISK_MECA.contains m)
  , has_high_risk_pbp2a := pbp2a_mutations.any (fun m => HIGH_RISK_PBP2A.contains m)
  , mecA_frequency_sum :=
      mec_a_mutations.foldl (fun acc m => acc + dictGetQ MUTATION_FREQUENCIES_mecA m 0.01) 0
  , pbp2a_frequency_sum :=
      pbp2a_mutations.foldl (fun acc m => acc + dictGetQ MUTATION_FREQUENCIES_PBP2a m 0.01) 0
  , has_sccmec := optStrTruthy sccmec_type
  , sccmec_type := sccmecRiskOf sccmec_type
  , strain_risk_score := sccmecRiskOf sccmec_type
  , has_van_genes :=
      if optListTruthy additional_genes then
        (additional_genes.getD []).any (fun g => strContains (strLower g) "van")
      else false
  , has_regulatory_mutations :=
      if optListTruthy additional_genes then
        (additional_genes.getD []).any
          (fun g => ["meci", "mecr1", "blai", "blar1"].contains (strLower g))
      else false }

/-- The 12-entry numpy vector built at ml_models.py lines 118-131 (entry 9 is
`features.sccmec_type if features.has_sccmec else 0.0`). -/
def featureVector (f : MutationFeatures) : List ℚ :=
  [ (f.mecA_count : ℚ)
  , (f.pbp2a_count : ℚ)
  , (f.total_mutations : ℚ)
  , boolToQ f.has_high_risk_mecA
  , boolToQ f.has_high_risk_pbp2a
  , f.mecA_frequency_sum
  , f.pbp2a_frequency_sum
  , boolToQ f.has_sccmec
  , if f.has_sccmec then f.sccmec_type else 0
  , boolToQ f.has_van_genes
  , boolToQ f.has_regulatory_mutations
  , f.strain_risk_score ]

/-! ### Python value/error model for the fallback predictors -/

/-- The two Python exception classes the modelled code can raise. -/
inductive PyError where
  | typeError (msg : String)
  | valueError (msg : String)
deriving DecidableEq

/-- The runtime value of the Python expression
`additional_genes and any('van' in g.lower() for g in additional_genes)`
(ml_models.py lines 283 and 402).  Python `and` returns its left operand when
that operand is falsy, so the result is `None`, the empty list, or a bool. -/
inductive PyVal where
  | pyNone
  | pyList (l : List String)
  | pyBool (b : Bool)
deriving DecidableEq

/-- Message of the `TypeError` raised by `float(None)` / `float([])`. -/
def floatTypeErrorMsg : String := "float() argument must be a string or a real number"

/-- Python `float(...)` on the value of the `and` expression: defined on
bools, raises `TypeError` on `None` and on lists. -/
def pyFloat : PyVal → Except PyError ℚ
  | .pyBool b => .ok (boolToQ b)
  | .pyNone => .error (.typeError floatTypeErrorMsg)
  | .pyList _ => .error (.typeError floatTypeErrorMsg)

/-- `additional_genes and any(p(g) for g in additional_genes)` as a Python
value (ml_models.py lines 283 and 402). -/
def pyAndAny (additional_genes : Option (List String)) (p : String → Bool) : PyVal :=
  match additional_genes with
  | none => .pyNone
  | some [] => .pyList []
  | some (g :: gs) => .pyBool ((g :: gs).any p)

/-- True exactly on `Except.ok`. -/
def isOkE {α : Type} : Except PyError α → Bool
  | .ok _ => true
  | .error _ => false

/-- True exactly on a raised `ValueError`. -/
def isValueError {α : Type} : Except PyError α → Bool
  | .error (.valueError _) => true
  | _ => false

/-! ### Heuristic fallback predictors (ml_models.py lines 271-302 and 389-421) -/

/-- One per-antibiotic entry of the `predictions` dict:
`probability`, `prediction = int(prob > 0.5)`, `confidence = max(p, 1-p)`. -/
structure PredRecord where
  probability : ℚ
  prediction : Nat
  confidence : ℚ
deriving DecidableEq

/-- Builds one per-antibiotic entry exactly as at ml_models.py lines 297-299
and 411-413. -/
def mkPredRecord (p : ℚ) : PredRecord :=
  { probability := p
  , prediction := if p > 0.5 then 1 else 0
  , confidence := max p (1 - p) }

/-- The result dict of a single model (`model`, `predictions`,
`feature_importance`; presentational keys such as `tree_count` are omitted). -/
structure ModelResult where
  model : String
  oxacillin : PredRecord
  vancomycin : PredRecord
  ceftaroline : PredRecord
  feature_importance : List (String × ℚ)
deriving DecidableEq

/-- `SVMResistancePredictor._heuristic_predict` (ml_models.py lines 271-302).
In the source, `has_van` (line 283) is `additional_genes and any(...)`, and
line 289 applies `float` to it; when `additional_genes` is `None` or `[]`
that raises `TypeError`, which the `Except` propagates.  The importance list
is `_get_heuristic_importance` (lines 317-323) without its presentational
`value` keys. -/
def svmHeuristicPredict (mec_a_mutations pbp2a_mutations : List String)
    (additional_genes : Option (List String)) : Except PyError ModelResult :=
  let mecA_count : ℚ := mec_a_mutations.length
  let pbp2a_count : ℚ := pbp2a_mutations.length
  let has_high_risk_mecA := mec_a_mutations.any (fun m => HIGH_RISK_MECA.contains m)
  let has_high_risk_pbp2a := pbp2a_mutations.any (fun m => HIGH_RISK_PBP2A.contains m)
  let oxa_prob := min 0.95 (0.3 + 0.12 * mecA_count + 0.15 * boolToQ has_high_risk_mecA)
  match pyFloat (pyAndAny additional_genes (fun g => strContains (strLower g) "van")) with
  | .error e => .error e
  | .ok has_van_f =>
    let van_prob := min 0.3 (0.05 + 0.4 * has_van_f + 0.02 * (mecA_count + pbp2a_count))
    let cef_prob :=
      min 0.85 (0.2 + 0.1 * pbp2a_count + 0.12 * boolToQ has_high_risk_pbp2a + 0.05 * mecA_count)
    .ok { model := "SVM (heuristic fallback)"
        , oxacillin := mkPredRecord oxa_prob
        , vancomycin := mkPredRecord van_prob
        , ceftaroline := mkPredRecord cef_prob
        , feature_importance :=
            [("mecA_mutation_count", 0.15 * mecA_count),
             ("pbp2a_mutation_count", 0.12 * pbp2a_count),
             ("total_mutations", 0.08 * (mecA_count + pbp2a_count))] }

/-- `RandomForestResistancePredictor._heuristic_predict` (ml_models.py lines
389-421); same structure as the SVM variant with its own constant set. -/
def rfHeuristicPredict (mec_a_mutations pbp2a_mutations : List String)
    (additional_genes : Option (List String)) : Except PyError ModelResult :=
  let mecA_count : ℚ := mec_a_mutations.length
  let pbp2a_count : ℚ := pbp2a_mutations.length
  let has_high_risk_mecA := mec_a_mutations.any (fun m => HIGH_RISK_MECA.contains m)
  let has_high_risk_pbp2a := pbp2a_mutations.any (fun m => HIGH_RISK_PBP2A.contains m)
  let oxa_prob := min 0.92 (0.35 + 0.1 * mecA_count + 0.18 * boolToQ has_high_risk_mecA)
  match pyFloat (pyAndAny additional_genes (fun g => strContains (strLower g) "van")) with
  | .error e => .error e
  | .ok has_van_f =>
    let van_prob := min 0.25 (0.03 + 0.45 * has_van_f + 0.015 * (mecA_count + pbp2a_count))
    let cef_prob :=
      min 0.82 (0.18 + 0.11 * pbp2a_count + 0.14 * boolToQ has_high_risk_pbp2a + 0.04 * mecA_count)
    .ok { model := "Random Forest (heuristic fallback)"
        , oxacillin := mkPredRecord oxa_prob
        , vancomycin := mkPredRecord van_prob
        , ceftaroline := mkPredRecord cef_prob
        , feature_importance :=
            [("mecA_mutations", 0.25), ("pbp2a_mutations", 0.20),
             ("high_risk_mutations", 0.18)] }

/-- `SVMResistancePredictor.predict` in the sklearn-unavailable branch
(ml_models.py lines 233-269): features are extracted (line 246, never an
error) and then the heuristic fallback runs. -/
def svmPredict (mec_a_mutations pbp2a_mutations : List String)
    (sccmec_type : Option String) (additional_genes : Option (List String)) :
    Except PyError ModelResult :=
  let _features := extract_features mec_a_mutations pbp2a_mutations sccmec_type additional_genes
  svmHeuristicPredict mec_a_mutations pbp2a_mutations additional_genes

/-- `RandomForestResistancePredictor.predict` in the sklearn-unavailable
branch (ml_models.py lines 355-387). -/
def rfPredict (mec_a_mutations pbp2a_mutations : List String)
    (sccmec_type : Option String) (additional_genes : Option (List String)) :
    Except PyError ModelResult :=
  let _features := extract_features mec_a_mutations pbp2a_mutations sccmec_type additional_genes
  rfHeuristicPredict mec_a_mutations pbp2a_mutations additional_genes

/-! ### Ensemble combiner (`EnsembleResistancePredictor.predict`,
ml_models.py lines 444-485) -/

/-- One per-antibiotic ensemble entry (ml_models.py lines 469-475). -/
structure EnsembleAbPred where
  probability : ℚ
  prediction : Nat
  confidence : ℚ
  svm_probability : ℚ
  rf_probability : ℚ
deriving DecidableEq

/-- The per-antibiotic combination step (ml_models.py lines 460-475):
`0.45·svm_prob + 0.55·rf_prob`, binary call `prob > 0.5`, confidence
`max(prob, 1-prob)`. -/
def ensembleCombine (svm_prob rf_prob : ℚ) : EnsembleAbPred :=
  let ensemble_prob := 0.45 * svm_prob + 0.55 * rf_prob
  { probability := ensemble_prob
  , prediction := if ensemble_prob > 0.5 then 1 else 0
  , confidence := max ensemble_prob (1 - ensemble_prob)
  , svm_probability := svm_prob
  , rf_probability := rf_prob }

/-- Result of the ensemble predictor (the `individual_models` and `weights`
echo keys are presentational and omitted). -/
structure EnsembleResult where
  model : String
  oxacillin : EnsembleAbPred
  vancomycin : EnsembleAbPred
  ceftaroline : EnsembleAbPred
deriving DecidableEq

/-- `EnsembleResistancePredictor.predict` (ml_models.py lines 444-485) in the
sklearn-unavailable branch: both sub-predictors run their heuristic path and
any exception propagates. -/
def ensemblePredict (mec_a_mutations pbp2a_mutations : List String)
    (sccmec_type : Option String) (additional_genes : Option (List String)) :
    Except PyError EnsembleResult :=
  match svmPredict mec_a_mutations pbp2a_mutations sccmec_type additional_genes with
  | .error e => .error e
  | .ok svm_result =>
    match rfPredict mec_a_mutations pbp2a_mutations sccmec_type additional_genes with
    | .error e => .error e
    | .ok rf_result =>
      .ok { model := "Ensemble (SVM + Random Forest)"
          , oxacillin :=
              ensembleCombine svm_result.oxacillin.probability rf_result.oxacillin.probability
          , vancomycin :=
              ensembleCombine svm_result.vancomycin.probability rf_result.vancomycin.probability
          , ceftaroline :=
              ensembleCombine svm_result.ceftaroline.probability rf_result.ceftaroline.probability }

/-- Forgetting the ensemble-specific keys, as `predict_resistance_ml` does
when it reads only `model` and the three per-antibiotic entries; the
ensemble result dict carries no `feature_importance` key. -/
def ensembleToModelResult (e : EnsembleResult) : ModelResult :=
  { model := e.model
  , oxacillin := { probability := e.oxacillin.probability
                 , prediction := e.oxacillin.prediction
                 , confidence := e.oxacillin.confidence }
  , vancomycin := { probability := e.vancomycin.probability
                  , prediction := e.vancomycin.prediction
                  , confidence := e.vancomycin.confidence }
  , ceftaroline := { probability := e.ceftaroline.probability
                   , prediction := e.ceftaroline.prediction
                   , confidence := e.ceftaroline.confidence }
  , feature_importance := [] }

/-! ### Calibration helpers (predictions.py) -/

/-- The threat-level chained conditional used at predictions.py lines 124-125,
175 and 263: buckets on the maximum probability, lower bounds inclusive. -/
def threatLevelStr (max_prob : ℚ) : String :=
  if max_prob ≥ 0.75 then "High"
  else if max_prob ≥ 0.5 then "Moderate"
  else if max_prob ≥ 0.25 then "Low"
  else "Very Low"

/-- Threat level of a triple of probabilities, `max(oxa, van, cef)` fed to the
chained conditional (predictions.py lines 258-263 and 124-125). -/
def mlThreatLevel (oxa van cef : ℚ) : String :=
  threatLevelStr (max oxa (max van cef))

/-- Numeric severity of a threat-level string, for stating monotonicity. -/
def threatRank (s : String) : Nat :=
  if s == "High" then 3 else if s == "Moderate" then 2 else if s == "Low" then 1 else 0

/-- Worker mirroring `for i, m in enumerate(lst)` over an already-sliced list,
building `(name-with-gene-tag, min(1, base + i*step))` pairs
(predictions.py lines 117-121, 171-172 and 286-290). -/
def enumContribAux (pre : String) (base step : ℚ) : Nat → List String → List (String × ℚ)
  | _, [] => []
  | i, m :: ms =>
    (pre ++ m, min 1 (base + (i : ℚ) * step)) :: enumContribAux pre base step (i + 1) ms

/-- Contributing features of the narrative (Bayesian) paths (predictions.py
lines 117-121 and 171-173): mecA entries first with base 0.45, then PBP2a
with base 0.40, step 0.06, at most 6 per gene, input order. -/
def bayesianContrib (mec_a_mutations pbp2a_mutations : List String) : List (String × ℚ) :=
  enumContribAux "mecA:" 0.45 0.06 0 (mec_a_mutations.take 6)
    ++ enumContribAux "PBP2a:" 0.4 0.06 0 (pbp2a_mutations.take 6)

/-- Contributing features of `predict_resistance_ml` (predictions.py lines
286-290): mecA entries first with base 0.5, then PBP2a with base 0.45, step
0.05, at most 4 per gene, input order. -/
def mlContrib (mec_a_mutations pbp2a_mutations : List String) : List (String × ℚ) :=
  enumContribAux "mecA:" 0.5 0.05 0 (mec_a_mutations.take 4)
    ++ enumContribAux "PBP2a:" 0.45 0.05 0 (pbp2a_mutations.take 4)

/-- Spec-style restatement of one gene block of the contributing-feature
list: position `i` (over the capped prefix) carries weight
`min(1, base + i*step)`. Compared against the source-shaped loops above. -/
def contribWeights (pre : String) (base step : ℚ) (muts : List String) : List (String × ℚ) :=
  (List.range muts.length).map (fun i => (pre ++ muts.getD i "", min 1 (base + (i : ℚ) * step)))

/-- The overall-confidence expression of the narrative paths (predictions.py
lines 111-114 and 168): `min(0.95, max(0.55, 0.6 + mean·0.25 +
min(6, mec_count+pbp_count)·0.02))`. -/
def overallConfidence (oxa van cef : ℚ) (mec_count pbp_count : Nat) : ℚ :=
  min 0.95 (max 0.55 (0.6 + ((oxa + van + cef) / 3) * 0.25
    + ((min 6 (mec_count + pbp_count) : Nat) : ℚ) * 0.02))

/-- Spec-style clamp: `clamp(lo, hi, x) = min(hi, max(lo, x))`. -/
def clampSpec (lo hi x : ℚ) : ℚ := min hi (max lo x)

/-! ### `predict_resistance_ml` (predictions.py lines 215-331),
sklearn-unavailable branch -/

/-- Message of the `ValueError` raised at predictions.py line 237. -/
def mlValidationMsg : String := "Please provide at least one mecA or PBP2a mutation."

/-- Model selection (predictions.py lines 240-245) followed by the chosen
predictor call (lines 248-253). -/
def selectAndPredict (model_type : String) (mec_a_mutations pbp2a_mutations : List String)
    (sccmec_type : Option String) (additional_genes : Option (List String)) :
    Except PyError ModelResult :=
  if model_type == "svm" then
    svmPredict mec_a_mutations pbp2a_mutations sccmec_type additional_genes
  else if model_type == "random_forest" then
    rfPredict mec_a_mutations pbp2a_mutations sccmec_type additional_genes
  else
    Except.map ensembleToModelResult
      (ensemblePredict mec_a_mutations pbp2a_mutations sccmec_type additional_genes)

/-- The output record of `predict_resistance_ml` (predictions.py lines
308-331), restricted to the computed fields; the chart, breakdown, rationale
and solution strings are presentational. -/
structure MLOutput where
  model : String
  oxacillinResistanceProbability : ℚ
  vancomycinResistanceProbability : ℚ
  ceftarolineResistanceProbability : ℚ
  threatLevel : String
  confidenceLevel : ℚ
  contributingFeatures : List (String × ℚ)
deriving DecidableEq

/-- Lines 255-331 of predictions.py: threat level from the max probability,
contributing features, average confidence over the three antibiotics. -/
def buildMLOutput (mec_a_mutations pbp2a_mutations : List String) (r : ModelResult) : MLOutput :=
  { model := r.model
  , oxacillinResistanceProbability := r.oxacillin.probability
  , vancomycinResistanceProbability := r.vancomycin.probability
  , ceftarolineResistanceProbability := r.ceftaroline.probability
  , threatLevel :=
      mlThreatLevel r.oxacillin.probability r.vancomycin.probability r.ceftaroline.probability
  , confidenceLevel :=
      (r.oxacillin.confidence + r.vancomycin.confidence + r.ceftaroline.confidence) / 3
  , contributingFeatures := mlContrib mec_a_mutations pbp2a_mutations }

/-- `predict_resistance_ml` (predictions.py lines 215-331): the validation at
lines 236-237 raises `ValueError` when both mutation lists are empty, before
any model is selected or invoked; otherwise the selected model runs and the
output record is assembled. -/
def predict_resistance_ml (mec_a_mutations pbp2a_mutations : List String)
    (model_type : String) (sccmec_type : Option String)
    (additional_genes : Option (List String)) : Except PyError MLOutput :=
  if mec_a_mutations.isEmpty && pbp2a_mutations.isEmpty then
    .error (.valueError mlValidationMsg)
  else
    Except.map (buildMLOutput mec_a_mutations pbp2a_mutations)
      (selectAndPredict model_type mec_a_mutations pbp2a_mutations sccmec_type additional_genes)

/-- Message of the `ValueError` raised at predictions.py line 34. -/
def bayesianValidationMsg : String :=
  "Please provide at least one mecA or PBP2a mutation (e.g., [\"G246E\"])."

/-- The validation gate of `predict_resistance_bayesian` (predictions.py
lines 33-34), which runs before the dataset lookup, the prompt construction
and any model call; the rest of that function consumes the excluded
LLM collaborator. -/
def predict_resistance_bayesian_validate (mec_a_mutations pbp2a_mutations : List String) :
    Except PyError Unit :=
  if mec_a_mutations.isEmpty && pbp2a_mutations.isEmpty then
    .error (.valueError bayesianValidationMsg)
  else
    .ok ()

/-! ### Synthetic cohort generation (`_generate_training_data`, ml_models.py
lines 185-231) and the predictor initialisers (lines 154-183, 329-353).

The numpy global generator is abstracted as an arbitrary deterministic PRNG
implementation: a state type, a `seed` function (modelling
`np.random.seed(42)`, which replaces the global state), a Poisson draw and a
uniform draw.  Every theorem below is proved for every implementation, so
nothing depends on the specifics of the Mersenne Twister. -/

/-- An arbitrary PRNG implementation standing in for `np.random`. -/
structure RngImpl where
  State : Type
  seed : Nat → State
  poisson : ℚ → State → Nat × State
  random : State → ℚ × State

/-- One sample of the synthetic cohort: feature row and the three labels. -/
structure CohortSample where
  features : List ℚ
  y_oxa : Nat
  y_van : Nat
  y_cef : Nat

/-- One iteration of the generation loop (ml_models.py lines 195-229),
threading the PRNG state through the draws in source order.  The SCCmec risk
draw happens only when `has_sccmec` (the conditional expression at line
205). -/
def genSample (R : RngImpl) (s : R.State) : CohortSample × R.State :=
  let (mecA_count, s) := R.poisson 2 s
  let (pbp2a_count, s) := R.poisson 1.5 s
  let total := mecA_count + pbp2a_count
  let (r1, s) := R.random s
  let has_high_risk_mecA := decide (r1 < 0.3)
  let (r2, s) := R.random s
  let has_high_risk_pbp2a := decide (r2 < 0.25)
  let (r3, s) := R.random s
  let mecA_freq := r3 * 0.5
  let (r4, s) := R.random s
  let pbp2a_freq := r4 * 0.4
  let (r5, s) := R.random s
  let has_sccmec := decide (r5 < 0.6)
  let (sccmec_risk, s) :=
    if has_sccmec then
      let (r, s') := R.random s
      (r * 0.9, s')
    else ((0 : ℚ), s)
  let (r6, s) := R.random s
  let has_van := decide (r6 < 0.05)
  let (r7, s) := R.random s
  let has_reg := decide (r7 < 0.2)
  let (r8, s) := R.random s
  let strain_risk := r8 * 0.8
  let features : List ℚ :=
    [ (mecA_count : ℚ), (pbp2a_count : ℚ), (total : ℚ)
    , boolToQ has_high_risk_mecA, boolToQ has_high_risk_pbp2a
    , mecA_freq, pbp2a_freq
    , boolToQ has_sccmec, sccmec_risk
    , boolToQ has_van, boolToQ has_reg, strain_risk ]
  let oxa_prob :=
    0.3 + 0.15 * (mecA_count : ℚ) + 0.2 * boolToQ has_high_risk_mecA + 0.1 * sccmec_risk
  let (r9, s) := R.random s
  let y_oxa := if r9 < min 0.95 oxa_prob then 1 else 0
  let van_prob := 0.02 + 0.5 * boolToQ has_van + 0.05 * (total : ℚ) * 0.1
  let (r10, s) := R.random s
  let y_van := if r10 < min 0.3 van_prob then 1 else 0
  let cef_prob :=
    0.15 + 0.12 * (pbp2a_count : ℚ) + 0.15 * boolToQ has_high_risk_pbp2a
      + 0.08 * (mecA_count : ℚ)
  let (r11, s) := R.random s
  let y_cef := if r11 < min 0.85 cef_prob then 1 else 0
  ({ features := features, y_oxa := y_oxa, y_van := y_van, y_cef := y_cef }, s)

/-- The `for _ in range(n_samples)` loop of lines 195-229. -/
def genLoop (R : RngImpl) : Nat → R.State → List CohortSample × R.State
  | 0, s => ([], s)
  | n + 1, s =>
    let (sample, s1) := genSample R s
    let (rest, s2) := genLoop R n s1
    (sample :: rest, s2)

/-- The generated cohort: `X` and the three label vectors
(ml_models.py line 231). -/
structure TrainingData where
  X : List (List ℚ)
  y_oxacillin : List Nat
  y_vancomycin : List Nat
  y_ceftaroline : List Nat

/-- `_generate_training_data` (ml_models.py lines 185-231).  Line 187 is
`np.random.seed(42)`: the incoming global generator state is discarded and
replaced by the fixed-seed state, so the returned cohort is independent of
the incoming state. -/
def generate_training_data (R : RngImpl) (_globalState : R.State) :
    TrainingData × R.State :=
  let s0 := R.seed 42
  let (samples, s) := genLoop R 500 s0
  ({ X := samples.map (fun c => c.features)
   , y_oxacillin := samples.map (fun c => c.y_oxa)
   , y_vancomycin := samples.map (fun c => c.y_van)
   , y_ceftaroline := samples.map (fun c => c.y_cef) }, s)

/-- `SVMResistancePredictor.__init__` → `_initialize_pretrained_weights`
(ml_models.py lines 154-183): the stored `self.training_data` is the
generated cohort. -/
def svmPredictorInit (R : RngImpl) (s : R.State) : TrainingData × R.State :=
  generate_training_data R s

/-- `RandomForestResistancePredictor._initialize_pretrained_weights`
(ml_models.py lines 343-353): a fresh `SVMResistancePredictor()` is
constructed and its `training_data` copied; the RF models are then fit from
exactly this cohort. -/
def rfPredictorInit (R : RngImpl) (s : R.State) : TrainingData × R.State :=
  svmPredictorInit R s

/-! ## Helper lemmas -/

theorem dictGetQ_mem_or_default (d : List (String × ℚ)) (k : String) (dflt : ℚ) :
    (∃ p ∈ d, dictGetQ d k dflt = p.2) ∨ dictGetQ d k dflt = dflt := by
  unfold dictGetQ
  cases h : d.find? (fun p => p.1 == k) with
  | none => right; rfl
  | some p => left; exact ⟨p, List.mem_of_find?_eq_some h, rfl⟩

theorem dictGetQ_bounds (d : List (String × ℚ)) (k : String) (dflt lo hi : ℚ)
    (hd : ∀ p ∈ d, lo ≤ p.2 ∧ p.2 ≤ hi) (h0 : lo ≤ dflt ∧ dflt ≤ hi) :
    lo ≤ dictGetQ d k dflt ∧ dictGetQ d k dflt ≤ hi := by
  rcases dictGetQ_mem_or_default d k dflt with ⟨p, hp, he⟩ | he
  · rw [he]; exact hd p hp
  · rw [he]; exact h0

theorem dictGetQ_nonneg (d : List (String × ℚ)) (k : String) (dflt : ℚ)
    (hd : ∀ p ∈ d, 0 ≤ p.2) (h0 : 0 ≤ dflt) : 0 ≤ dictGetQ d k dflt := by
  rcases dictGetQ_mem_or_default d k dflt with ⟨p, hp, he⟩ | he
  · rw [he]; exact hd p hp
  · rw [he]; exact h0

theorem foldl_dictGetQ_nonneg (d : List (String × ℚ)) (dflt : ℚ)
    (hd : ∀ p ∈ d, 0 ≤ p.2) (h0 : 0 ≤ dflt) :
    ∀ (l : List String) (a : ℚ), 0 ≤ a →
      0 ≤ l.foldl (fun acc m => acc + dictGetQ d m dflt) a := by
  intro l
  induction l with
  | nil => intro a ha; simpa using ha
  | cons m ms ih =>
    intro a ha
    simp only [List.foldl_cons]
    exact ih _ (add_nonneg ha (dictGetQ_nonneg d m dflt hd h0))

theorem boolToQ_zero_or_one (b : Bool) : boolToQ b = 0 ∨ boolToQ b = 1 := by
  cases b <;> simp [boolToQ]

theorem boolToQ_nonneg (b : Bool) : 0 ≤ boolToQ b := by
  cases b <;> norm_num [boolToQ]

theorem threatRank_values :
    threatRank "High" = 3 ∧ threatRank "Moderate" = 2 ∧ threatRank "Low" = 1
    ∧ threatRank "Very Low" = 0 := ⟨rfl, rfl, rfl, rfl⟩

/-! ## Claims -/

/-- Claim C3: for per-antibiotic probabilities `a` (SVM) and `b` (Random
Forest) in `[0,1]`, the ensemble combiner outputs probability
`0.45·a + 0.55·b`, predicts `1` exactly when that probability is strictly
greater than `0.5`, and reports confidence `max(p, 1-p)`; the step is a pure
function with no error conditions (it is total by construction). -/
theorem ensemble_combiner_exact (a b : ℚ)
    (ha0 : 0 ≤ a) (ha1 : a ≤ 1) (hb0 : 0 ≤ b) (hb1 : b ≤ 1) :
    (ensembleCombine a b).probability = 0.45 * a + 0.55 * b
    ∧ ((ensembleCombine a b).prediction = 1 ↔ 0.45 * a + 0.55 * b > 0.5)
    ∧ (ensembleCombine a b).confidence
        = max (ensembleCombine a b).probability (1 - (ensembleCombine a b).probability) := by
  refine ⟨rfl, ?_, rfl⟩
  simp only [ensembleCombine]
  split_ifs with h
  · simp [h]
  · simp [h]

/-- Witness for C3 at `a = b = 0.5`. -/
theorem ensemble_combiner_exact_witness :
    (0:ℚ) ≤ 0.5 ∧ (0.5:ℚ) ≤ 1
    ∧ ((ensembleCombine 0.5 0.5).probability = 0.45 * 0.5 + 0.55 * 0.5
       ∧ ((ensembleCombine 0.5 0.5).prediction = 1 ↔ 0.45 * 0.5 + 0.55 * 0.5 > (0.5:ℚ))
       ∧ (ensembleCombine 0.5 0.5).confidence
           = max (ensembleCombine 0.5 0.5).probability
               (1 - (ensembleCombine 0.5 0.5).probability)) :=
  ⟨by norm_num, by norm_num,
   ensemble_combiner_exact 0.5 0.5 (by norm_num) (by norm_num) (by norm_num) (by norm_num)⟩

/-- Claim C4: the threat level is `High` when `max ≥ 0.75`, `Moderate` when
`0.5 ≤ max < 0.75`, `Low` when `0.25 ≤ max < 0.5`, `Very Low` otherwise
(each lower bound inclusive); it is monotonically non-decreasing in the
maximum probability, and the four sample points land in the stated
buckets. -/
theorem threat_level_buckets (a b c : ℚ) :
    (max a (max b c) ≥ 0.75 → mlThreatLevel a b c = "High")
    ∧ (0.5 ≤ max a (max b c) → max a (max b c) < 0.75 → mlThreatLevel a b c = "Moderate")
    ∧ (0.25 ≤ max a (max b c) → max a (max b c) < 0.5 → mlThreatLevel a b c = "Low")
    ∧ (max a (max b c) < 0.25 → mlThreatLevel a b c = "Very Low")
    ∧ (∀ p q : ℚ, p ≤ q → threatRank (threatLevelStr p) ≤ threatRank (threatLevelStr q))
    ∧ mlThreatLevel 0.8 0.1 0.1 = "High" ∧ mlThreatLevel 0.6 0.1 0.1 = "Moderate"
    ∧ mlThreatLevel 0.3 0.1 0.1 = "Low" ∧ mlThreatLevel 0.1 0.05 0.05 = "Very Low" := by
  have hm : ∀ p q : ℚ, p ≤ q → threatRank (threatLevelStr p) ≤ threatRank (threatLevelStr q) := by
    intro p q hpq
    unfold threatLevelStr
    have hv := threatRank_values
    split_ifs <;>
      simp only [hv.1, hv.2.1, hv.2.2.1, hv.2.2.2] <;> first | omega | linarith
  refine ⟨?_, ?_, ?_, ?_, hm, ?_, ?_, ?_, ?_⟩
  · intro h
    unfold mlThreatLevel threatLevelStr
    split_ifs <;> first | rfl | linarith
  · intro h1 h2
    unfold mlThreatLevel threatLevelStr
    split_ifs <;> first | rfl | linarith
  · intro h1 h2
    unfold mlThreatLevel threatLevelStr
    split_ifs <;> first | rfl | linarith
  · intro h
    unfold mlThreatLevel threatLevelStr
    split_ifs <;> first | rfl | linarith
  · unfold mlThreatLevel threatLevelStr
    norm_num
  · unfold mlThreatLevel threatLevelStr
    norm_num
  · unfold mlThreatLevel threatLevelStr
    norm_num
  · unfold mlThreatLevel threatLevelStr
    norm_num

/-- Witness for C4, applying the bucket implications at concrete maxima. -/
theorem threat_level_buckets_witness :
    max (0.8:ℚ) (max 0.1 0.1) ≥ 0.75 ∧ mlThreatLevel 0.8 0.1 0.1 = "High"
    ∧ (0.3:ℚ) ≤ 0.8
    ∧ threatRank (threatLevelStr 0.3) ≤ threatRank (threatLevelStr 0.8) :=
  ⟨by norm_num, (threat_level_buckets 0.8 0.1 0.1).1 (by norm_num), by norm_num,
   (threat_level_buckets 0 0 0).2.2.2.2.1 0.3 0.8 (by norm_num)⟩

/-- Claim C7: the overall confidence of the narrative-prediction paths equals
`clamp(0.55, 0.95, 0.6 + mean(probabilities)·0.25 +
min(6, mecA_count+PBP2a_count)·0.02)`, hence always lies in `[0.55, 0.95]`;
with three mecA mutations, no PBP2a mutations and probabilities averaging
`0.5` it equals `0.785`. -/
theorem overall_confidence_clamp (oxa van cef : ℚ) (mec_count pbp_count : Nat) :
    overallConfidence oxa van cef mec_count pbp_count
      = clampSpec 0.55 0.95 (0.6 + ((oxa + van + cef) / 3) * 0.25
          + ((min 6 (mec_count + pbp_count) : Nat) : ℚ) * 0.02)
    ∧ 0.55 ≤ overallConfidence oxa van cef mec_count pbp_count
    ∧ overallConfidence oxa van cef mec_count pbp_count ≤ 0.95
    ∧ overallConfidence 0.5 0.5 0.5 3 0 = 0.785 := by
  refine ⟨rfl, ?_, ?_, ?_⟩
  · exact le_min (by norm_num) (le_max_left _ _)
  · exact min_le_left _ _
  · have h6 : (min 6 (3 + 0) : Nat) = 3 := by norm_num
    unfold overallConfidence
    rw [h6]
    rw [max_eq_right (by norm_num), min_eq_right (by norm_num)]
    norm_num

/-- Claim C10: the Random Forest predictor initialisation constructs an SVM
predictor and reuses its generated training data, and
`_generate_training_data` reseeds the generator with the fixed seed 42 on
every call, so — for every PRNG implementation and regardless of the global
generator state either initialiser starts from — the cohort stored and fit
from by the Random Forest predictor (feature matrix and the per-antibiotic
label vectors) is equal to the one generated and stored by the SVM
predictor. -/
theorem rf_svm_identical_cohort (R : RngImpl) (s1 s2 : R.State) :
    (rfPredictorInit R s1).1 = (svmPredictorInit R s2).1
    ∧ (rfPredictorInit R s1).1.X = (svmPredictorInit R s2).1.X
    ∧ (rfPredictorInit R s1).1.y_oxacillin = (svmPredictorInit R s2).1.y_oxacillin
    ∧ (rfPredictorInit R s1).1.y_vancomycin = (svmPredictorInit R s2).1.y_vancomycin
    ∧ (rfPredictorInit R s1).1.y_ceftaroline = (svmPredictorInit R s2).1.y_ceftaroline
    ∧ (generate_training_data R s1).1 = (generate_training_data R s2).1 := by
  have h : generate_training_data R s1 = generate_training_data R s2 := rfl
  have h1 : rfPredictorInit R s1 = generate_training_data R s1 := rfl
  have h2 : svmPredictorInit R s2 = generate_training_data R s2 := rfl
  rw [h1, h2, h]
  exact ⟨rfl, rfl, rfl, rfl, rfl, rfl⟩

theorem SCCMEC_RISK_bounds01 : ∀ p ∈ SCCMEC_RISK, (0:ℚ) ≤ p.2 ∧ p.2 ≤ 1 := by
  norm_num [SCCMEC_RISK, List.forall_mem_cons]

theorem mecA_freqs_nonneg : ∀ p ∈ MUTATION_FREQUENCIES_mecA, (0:ℚ) ≤ p.2 := by
  norm_num [MUTATION_FREQUENCIES_mecA, List.forall_mem_cons]

theorem pbp2a_freqs_nonneg : ∀ p ∈ MUTATION_FREQUENCIES_PBP2a, (0:ℚ) ≤ p.2 := by
  norm_num [MUTATION_FREQUENCIES_PBP2a, List.forall_mem_cons]

theorem sccmecRiskOf_bounds (sc : Option String) :
    0 ≤ sccmecRiskOf sc ∧ sccmecRiskOf sc ≤ 1 := by
  cases sc with
  | none => norm_num [sccmecRiskOf]
  | some s =>
    simp only [sccmecRiskOf]
    split_ifs
    · norm_num
    · exact dictGetQ_bounds SCCMEC_RISK (sccmecClean s) 0.5 0 1 SCCMEC_RISK_bounds01
        (by norm_num)

/-- Claim C5 counterexample: the SCCmec lookup is case-sensitive, so the
inputs `"ii"` and `"II"` do not yield the same risk score: `"ii"` falls to
the unknown-type default `0.5` while `"II"` maps to `0.8`. -/
theorem sccmec_case_insensitive_counterexample :
    (extract_features [] [] (some "ii") none).sccmec_type = 0.5
    ∧ (extract_features [] [] (some "II") none).sccmec_type = 0.8
    ∧ (extract_features [] [] (some "ii") none).sccmec_type
        ≠ (extract_features [] [] (some "II") none).sccmec_type := by
  have ha : (extract_features [] [] (some "ii") none).sccmec_type = 0.5 := rfl
  have hb : (extract_features [] [] (some "II") none).sccmec_type = 0.8 := rfl
  refine ⟨ha, hb, ?_⟩
  rw [ha, hb]
  norm_num

/-- Claim C5 (amended): the SCCmec label is normalised by removing the
literal substrings `type-` and `type` and stripping whitespace, then looked
up case-sensitively, so `"type II"` and `"II"` agree; any nonempty label
whose normalisation is not a table key yields the default risk `0.5`; any
mutation code absent from the frequency map contributes frequency `0.01`;
the risk score always lies in `[0,1]`; none of these cases is an error. -/
theorem sccmec_lookup_defaults (s m : String) (hs : s ≠ "")
    (hlook : SCCMEC_RISK.find? (fun p => p.1 == sccmecClean s) = none)
    (hm : MUTATION_FREQUENCIES_mecA.find? (fun p => p.1 == m) = none) :
    (extract_features [] [] (some s) none).sccmec_type = 0.5
    ∧ (extract_features [m] [] none none).mecA_frequency_sum = 0.01
    ∧ (extract_features [] [] (some "type II") none).sccmec_type
        = (extract_features [] [] (some "II") none).sccmec_type
    ∧ (∀ t : Option String, 0 ≤ (extract_features [] [] t none).sccmec_type
        ∧ (extract_features [] [] t none).sccmec_type ≤ 1) := by
  refine ⟨?_, ?_, rfl, ?_⟩
  · show sccmecRiskOf (some s) = 0.5
    simp [sccmecRiskOf, hs, dictGetQ, hlook]
  · show [m].foldl (fun acc mm => acc + dictGetQ MUTATION_FREQUENCIES_mecA mm 0.01) 0 = 0.01
    simp [dictGetQ, hm]
  · intro t
    exact sccmecRiskOf_bounds t

/-- Witness for the amended C5 at the unrecognised label `"IX"` and the
unknown mutation code `"Q999Q"`. -/
theorem sccmec_lookup_defaults_witness :
    ("IX" : String) ≠ ""
    ∧ SCCMEC_RISK.find? (fun p => p.1 == sccmecClean "IX") = none
    ∧ MUTATION_FREQUENCIES_mecA.find? (fun p => p.1 == "Q999Q") = none
    ∧ ((extract_features [] [] (some "IX") none).sccmec_type = 0.5
       ∧ (extract_features ["Q999Q"] [] none none).mecA_frequency_sum = 0.01
       ∧ (extract_features [] [] (some "type II") none).sccmec_type
           = (extract_features [] [] (some "II") none).sccmec_type
       ∧ (∀ t : Option String, 0 ≤ (extract_features [] [] t none).sccmec_type
           ∧ (extract_features [] [] t none).sccmec_type ≤ 1)) :=
  ⟨by decide, rfl, rfl, sccmec_lookup_defaults "IX" "Q999Q" (by decide) rfl rfl⟩

theorem enumContribAux_eq_range (pre : String) (base step : ℚ) :
    ∀ (l : List String) (j : Nat),
      enumContribAux pre base step j l
        = (List.range l.length).map
            (fun i => (pre ++ l.getD i "", min 1 (base + ((j + i : Nat) : ℚ) * step))) := by
  intro l
  induction l with
  | nil => intro j; rfl
  | cons m ms ih =>
    intro j
    simp only [enumContribAux, List.length_cons, List.range_succ_eq_map, List.map_cons,
      List.map_map]
    congr 1
    rw [ih (j + 1)]
    refine List.map_congr_left ?_
    intro i hi
    simp only [Function.comp_apply, List.getD_cons_succ, Prod.mk.injEq, true_and]
    congr 1
    push_cast
    ring

theorem enumContribAux_zero (pre : String) (base step : ℚ) (l : List String) :
    enumContribAux pre base step 0 l = contribWeights pre base step l := by
  rw [enumContribAux_eq_range]
  unfold contribWeights
  refine List.map_congr_left ?_
  intro i hi
  simp

/-- Claim C6 counterexample: on the machine-learning prediction path
(`predict_resistance_ml`), the request mecA=`["A","B"]`, PBP2a=`["C"]` emits
contributing-feature weights `[0.5, 0.55, 0.45]` — base 0.5/0.45 and step
0.05 — not the claimed `[0.45, 0.51, 0.40]`. -/
theorem predict_ml_ok_contrib (mecA pbp : List String) (mt : String) (sc : Option String)
    (ag : Option (List String)) (out : MLOutput)
    (h : predict_resistance_ml mecA pbp mt sc ag = .ok out) :
    out.contributingFeatures = mlContrib mecA pbp := by
  unfold predict_resistance_ml at h
  split at h
  · exact absurd h (by simp)
  · cases hsel : selectAndPredict mt mecA pbp sc ag with
    | error e =>
      rw [hsel] at h
      exact absurd h (by simp [Except.map])
    | ok r =>
      rw [hsel] at h
      simp only [Except.map, Except.ok.injEq] at h
      rw [← h]
      rfl

theorem ml_contrib_counterexample :
    Except.map (fun r => r.contributingFeatures.map Prod.snd)
        (predict_resistance_ml ["A", "B"] ["C"] "ensemble" none (some ["blaZ"]))
      = .ok [0.5, 0.55, 0.45]
    ∧ Except.map (fun r => r.contributingFeatures.map Prod.snd)
        (predict_resistance_ml ["A", "B"] ["C"] "ensemble" none (some ["blaZ"]))
      ≠ .ok [0.45, 0.51, 0.4] := by
  have hok : isOkE (predict_resistance_ml ["A", "B"] ["C"] "ensemble" none (some ["blaZ"]))
      = true := rfl
  have heval : Except.map (fun r => r.contributingFeatures.map Prod.snd)
      (predict_resistance_ml ["A", "B"] ["C"] "ensemble" none (some ["blaZ"]))
      = .ok [0.5, 0.55, 0.45] := by
    cases hres : predict_resistance_ml ["A", "B"] ["C"] "ensemble" none (some ["blaZ"]) with
    | error e => rw [hres] at hok; exact absurd hok (by simp [isOkE])
    | ok out =>
      have hc := predict_ml_ok_contrib _ _ _ _ _ _ hres
      simp only [Except.map, hc]
      norm_num [mlContrib, enumContribAux, List.take]
  refine ⟨heval, ?_⟩
  rw [heval]
  norm_num

/-- Claim C6 (amended): the narrative (Bayesian) prediction paths emit, per
supplied mutation up to 6 per gene, weight `min(1, base + index·step)` with
base 0.45 (mecA) / 0.40 (PBP2a) and step 0.06 — so mecA=`["A","B"]`,
PBP2a=`["C"]` yields `[0.45, 0.51]` then `[0.40]` there — while the
machine-learning path caps at 4 per gene with base 0.5 (mecA) / 0.45 (PBP2a)
and step 0.05; on both paths all mecA entries precede all PBP2a entries and
the index follows input order starting at 0 with no sorting. -/
theorem contributing_features_amended (mecA pbp2a : List String) :
    bayesianContrib mecA pbp2a
      = contribWeights "mecA:" 0.45 0.06 (mecA.take 6)
          ++ contribWeights "PBP2a:" 0.4 0.06 (pbp2a.take 6)
    ∧ mlContrib mecA pbp2a
      = contribWeights "mecA:" 0.5 0.05 (mecA.take 4)
          ++ contribWeights "PBP2a:" 0.45 0.05 (pbp2a.take 4)
    ∧ (bayesianContrib ["A", "B"] ["C"]).map Prod.snd = [0.45, 0.51, 0.4]
    ∧ (mlContrib ["A", "B"] ["C"]).map Prod.snd = [0.5, 0.55, 0.45] := by
  refine ⟨?_, ?_, ?_, ?_⟩
  · unfold bayesianContrib
    rw [enumContribAux_zero, enumContribAux_zero]
  · unfold mlContrib
    rw [enumContribAux_zero, enumContribAux_zero]
  · norm_num [bayesianContrib, enumContribAux, List.take]
  · norm_num [mlContrib, enumContribAux, List.take]

/-- Claim C9: every feature vector produced by the extractor has all
components nonnegative, all five flag fields equal to 0 or 1, the SCCmec
risk and strain risk fields in `[0,1]`, and, when no SCCmec type is
supplied, the has-SCCmec flag is 0 and the SCCmec risk field is exactly
`0.0`. -/
theorem feature_vector_invariants (mecA pbp2a : List String)
    (sccmec : Option String) (addl : Option (List String)) :
    (∀ x ∈ featureVector (extract_features mecA pbp2a sccmec addl), 0 ≤ x)
    ∧ (boolToQ (extract_features mecA pbp2a sccmec addl).has_high_risk_mecA = 0
       ∨ boolToQ (extract_features mecA pbp2a sccmec addl).has_high_risk_mecA = 1)
    ∧ (boolToQ (extract_features mecA pbp2a sccmec addl).has_high_risk_pbp2a = 0
       ∨ boolToQ (extract_features mecA pbp2a sccmec addl).has_high_risk_pbp2a = 1)
    ∧ (boolToQ (extract_features mecA pbp2a sccmec addl).has_sccmec = 0
       ∨ boolToQ (extract_features mecA pbp2a sccmec addl).has_sccmec = 1)
    ∧ (boolToQ (extract_features mecA pbp2a sccmec addl).has_van_genes = 0
       ∨ boolToQ (extract_features mecA pbp2a sccmec addl).has_van_genes = 1)
    ∧ (boolToQ (extract_features mecA pbp2a sccmec addl).has_regulatory_mutations = 0
       ∨ boolToQ (extract_features mecA pbp2a sccmec addl).has_regulatory_mutations = 1)
    ∧ (0 ≤ (extract_features mecA pbp2a sccmec addl).sccmec_type
       ∧ (extract_features mecA pbp2a sccmec addl).sccmec_type ≤ 1)
    ∧ (0 ≤ (extract_features mecA pbp2a sccmec addl).strain_risk_score
       ∧ (extract_features mecA pbp2a sccmec addl).strain_risk_score ≤ 1)
    ∧ (sccmec = none → (extract_features mecA pbp2a sccmec addl).has_sccmec = false
       ∧ (extract_features mecA pbp2a sccmec addl).sccmec_type = 0) := by
  have hsc : (extract_features mecA pbp2a sccmec addl).sccmec_type = sccmecRiskOf sccmec := rfl
  have hst : (extract_features mecA pbp2a sccmec addl).strain_risk_score
      = sccmecRiskOf sccmec := rfl
  refine ⟨?_, boolToQ_zero_or_one _, boolToQ_zero_or_one _, boolToQ_zero_or_one _,
    boolToQ_zero_or_one _, boolToQ_zero_or_one _, ?_, ?_, ?_⟩
  · intro x hx
    simp only [featureVector, List.mem_cons, List.not_mem_nil, or_false] at hx
    rcases hx with h | h | h | h | h | h | h | h | h | h | h | h <;> subst h
    · exact Nat.cast_nonneg _
    · exact Nat.cast_nonneg _
    · exact Nat.cast_nonneg _
    · exact boolToQ_nonneg _
    · exact boolToQ_nonneg _
    · exact foldl_dictGetQ_nonneg _ _ mecA_freqs_nonneg (by norm_num) mecA 0 le_rfl
    · exact foldl_dictGetQ_nonneg _ _ pbp2a_freqs_nonneg (by norm_num) pbp2a 0 le_rfl
    · exact boolToQ_nonneg _
    · split_ifs
      · exact (sccmecRiskOf_bounds sccmec).1
      · exact le_refl 0
    · exact boolToQ_nonneg _
    · exact boolToQ_nonneg _
    · exact (sccmecRiskOf_bounds sccmec).1
  · rw [hsc]; exact sccmecRiskOf_bounds sccmec
  · rw [hst]; exact sccmecRiskOf_bounds sccmec
  · intro h
    subst h
    exact ⟨rfl, rfl⟩

/-- Witness for C9 at the input mecA=`["G246E"]`, no PBP2a mutations, no
SCCmec type, no additional genes (discharging the no-SCCmec hypothesis). -/
theorem feature_vector_invariants_witness :
    (∀ x ∈ featureVector (extract_features ["G246E"] [] none none), 0 ≤ x)
    ∧ ((extract_features ["G246E"] [] none none).has_sccmec = false
       ∧ (extract_features ["G246E"] [] none none).sccmec_type = 0) :=
  ⟨(feature_vector_invariants ["G246E"] [] none none).1,
   (feature_vector_invariants ["G246E"] [] none none).2.2.2.2.2.2.2.2 rfl⟩

/-- Claim C1 (code bug): the heuristic fallback path is not total.  With the
additional-genes argument omitted (`None`, the default of the callers) or an
empty list, both `_heuristic_predict` variants evaluate `float(has_van)`
where `has_van` is the value of `additional_genes and any(...)` — that is,
`None` or `[]` — and raise `TypeError` instead of returning a result record;
with a nonempty additional-genes list they do return a record. -/
theorem heuristic_fallback_totality_violation :
    svmHeuristicPredict ["G246E"] [] none = .error (.typeError floatTypeErrorMsg)
    ∧ rfHeuristicPredict ["G246E"] [] none = .error (.typeError floatTypeErrorMsg)
    ∧ svmHeuristicPredict ["G246E"] [] (some []) = .error (.typeError floatTypeErrorMsg)
    ∧ rfHeuristicPredict ["G246E"] [] (some []) = .error (.typeError floatTypeErrorMsg)
    ∧ isOkE (svmHeuristicPredict ["G246E"] [] (some ["blaZ"])) = true
    ∧ isOkE (rfHeuristicPredict ["G246E"] [] (some ["blaZ"])) = true :=
  ⟨rfl, rfl, rfl, rfl, rfl, rfl⟩

/-- Claim C2 (code bug): whenever the SVM-variant fallback returns (which
requires a nonempty additional-genes list), it returns exactly the stated
closed-form record — in particular oxacillin probability
`min(0.95, 0.3 + 0.12·mecA_count + 0.15·has_high_risk_mecA)`, which is
`0.57` for mecA=`["G246E"]`, PBP2a=`[]` — and it is a pure function, hence
deterministic; but at that very input with additional genes omitted the call
raises `TypeError` instead of producing `0.57`. -/
theorem svm_heuristic_formula_exact :
    (∀ (mecA pbp2a : List String) (g : String) (gs : List String),
       svmHeuristicPredict mecA pbp2a (some (g :: gs))
         = .ok { model := "SVM (heuristic fallback)"
               , oxacillin := mkPredRecord (min 0.95 (0.3 + 0.12 * (mecA.length : ℚ)
                   + 0.15 * boolToQ (mecA.any fun m => HIGH_RISK_MECA.contains m)))
               , vancomycin := mkPredRecord (min 0.3 (0.05
                   + 0.4 * boolToQ ((g :: gs).any fun x => strContains (strLower x) "van")
                   + 0.02 * ((mecA.length : ℚ) + (pbp2a.length : ℚ))))
               , ceftaroline := mkPredRecord (min 0.85 (0.2 + 0.1 * (pbp2a.length : ℚ)
                   + 0.12 * boolToQ (pbp2a.any fun m => HIGH_RISK_PBP2A.contains m)
                   + 0.05 * (mecA.length : ℚ)))
               , feature_importance :=
                   [("mecA_mutation_count", 0.15 * (mecA.length : ℚ)),
                    ("pbp2a_mutation_count", 0.12 * (pbp2a.length : ℚ)),
                    ("total_mutations", 0.08 * ((mecA.length : ℚ) + (pbp2a.length : ℚ)))] })
    ∧ Except.map (fun r => r.oxacillin.probability)
        (svmHeuristicPredict ["G246E"] [] (some ["blaZ"])) = .ok 0.57
    ∧ svmHeuristicPredict ["G246E"] [] none = .error (.typeError floatTypeErrorMsg) := by
  refine ⟨fun mecA pbp2a g gs => rfl, ?_, rfl⟩
  have h1 : (["G246E"].any fun m => HIGH_RISK_MECA.contains m) = true := by decide
  have h2 : (["blaZ"].any fun x => strContains (strLower x) "van") = false := by decide
  have h3 : "G246E" ∈ HIGH_RISK_MECA := by decide
  norm_num [svmHeuristicPredict, pyAndAny, h1, h2, h3, pyFloat, boolToQ, Except.map,
    mkPredRecord]

theorem isValueError_svmPredict (mecA pbp2a : List String) (sc : Option String)
    (ag : Option (List String)) : isValueError (svmPredict mecA pbp2a sc ag) = false := by
  cases ag with
  | none => rfl
  | some l =>
    cases l with
    | nil => rfl
    | cons g gs => rfl

theorem isValueError_rfPredict (mecA pbp2a : List String) (sc : Option String)
    (ag : Option (List String)) : isValueError (rfPredict mecA pbp2a sc ag) = false := by
  cases ag with
  | none => rfl
  | some l =>
    cases l with
    | nil => rfl
    | cons g gs => rfl

theorem isValueError_map {α β : Type} (f : α → β) (x : Except PyError α) :
    isValueError (Except.map f x) = isValueError x := by
  cases x with
  | ok a => rfl
  | error e => cases e <;> rfl

theorem isValueError_ensemblePredict (mecA pbp2a : List String) (sc : Option String)
    (ag : Option (List String)) : isValueError (ensemblePredict mecA pbp2a sc ag) = false := by
  cases ag with
  | none => rfl
  | some l =>
    cases l with
    | nil => rfl
    | cons g gs => rfl

theorem isValueError_selectAndPredict (mt : String) (mecA pbp2a : List String)
    (sc : Option String) (ag : Option (List String)) :
    isValueError (selectAndPredict mt mecA pbp2a sc ag) = false := by
  unfold selectAndPredict
  split_ifs
  · exact isValueError_svmPredict mecA pbp2a sc ag
  · exact isValueError_rfPredict mecA pbp2a sc ag
  · rw [isValueError_map]
    exact isValueError_ensemblePredict mecA pbp2a sc ag

theorem predict_ml_nonempty_no_valueError (mecA pbp2a : List String) (mt : String)
    (sc : Option String) (ag : Option (List String))
    (hne : (mecA.isEmpty && pbp2a.isEmpty) = false) :
    isValueError (predict_resistance_ml mecA pbp2a mt sc ag) = false := by
  unfold predict_resistance_ml
  have hcond : ¬((mecA.isEmpty && pbp2a.isEmpty) = true) := by
    rw [hne]
    simp
  rw [if_neg hcond, isValueError_map]
  exact isValueError_selectAndPredict mt mecA pbp2a sc ag

/-- Claim C8: a `predict_resistance_ml` request raises the `ValueError`
(InvalidInput) exactly when both mutation lists are empty, and the rejection
is the fixed validation error raised up front — before model selection,
feature extraction or prediction — regardless of every other argument; a
request with at least one mutation never raises the `ValueError`. -/
theorem invalid_input_iff_empty (mecA pbp2a : List String) (mt : String)
    (sc : Option String) (ag : Option (List String)) :
    (isValueError (predict_resistance_ml mecA pbp2a mt sc ag) = true
       ↔ (mecA = [] ∧ pbp2a = []))
    ∧ (mecA = [] ∧ pbp2a = [] →
        predict_resistance_ml mecA pbp2a mt sc ag
          = .error (.valueError mlValidationMsg))
    ∧ (isValueError (predict_resistance_bayesian_validate mecA pbp2a) = true
       ↔ (mecA = [] ∧ pbp2a = [])) := by
  rcases mecA with _ | ⟨m, ms⟩
  · rcases pbp2a with _ | ⟨p, ps⟩
    · exact ⟨⟨fun _ => ⟨rfl, rfl⟩, fun _ => rfl⟩, fun _ => rfl,
        ⟨fun _ => ⟨rfl, rfl⟩, fun _ => rfl⟩⟩
    · have hf : isValueError (predict_resistance_ml [] (p :: ps) mt sc ag) = false :=
        predict_ml_nonempty_no_valueError [] (p :: ps) mt sc ag rfl
      refine ⟨⟨fun h => ?_, fun h => ?_⟩, fun h => ?_, ⟨fun h => ?_, fun h => ?_⟩⟩
      · rw [hf] at h
        exact absurd h (by simp)
      · exact absurd h.2 (by simp)
      · exact absurd h.2 (by simp)
      · exact absurd h (by simp [predict_resistance_bayesian_validate, isValueError])
      · exact absurd h.2 (by simp)
  · have hf : isValueError (predict_resistance_ml (m :: ms) pbp2a mt sc ag) = false :=
      predict_ml_nonempty_no_valueError (m :: ms) pbp2a mt sc ag rfl
    refine ⟨⟨fun h => ?_, fun h => ?_⟩, fun h => ?_, ⟨fun h => ?_, fun h => ?_⟩⟩
    · rw [hf] at h
      exact absurd h (by simp)
    · exact absurd h.1 (by simp)
    · exact absurd h.1 (by simp)
    · exact absurd h (by simp [predict_resistance_bayesian_validate, isValueError])
    · exact absurd h.1 (by simp)

/-- Witness for C8 at the empty request (both hypotheses of the implication
discharged at `mecA = pbp2a = []`). -/
theorem invalid_input_iff_empty_witness :
    (isValueError (predict_resistance_ml [] [] "ensemble" none none) = true
       ↔ (([] : List String) = [] ∧ ([] : List String) = []))
    ∧ predict_resistance_ml [] [] "ensemble" none none
        = .error (.valueError mlValidationMsg)
    ∧ (isValueError (predict_resistance_bayesian_validate [] []) = true
       ↔ (([] : List String) = [] ∧ ([] : List String) = [])) :=
  ⟨(invalid_input_iff_empty [] [] "ensemble" none none).1,
   (invalid_input_iff_empty [] [] "ensemble" none none).2.1 ⟨rfl, rfl⟩,
   (invalid_input_iff_empty [] [] "ensemble" none none).2.2⟩
